import Mathlib

/-!
Verification development for the das-bridge DAS Trader client library.

The Python source is embedded shallowly:
* Python `str` values are Lean `String`s; the string primitives used by the
  source (`strip`, `split`, `startswith`, `upper`, slicing) are re-implemented
  by structural recursion over `List Char` so that they are executable and
  kernel-reducible.
* `decimal.Decimal` values are modelled as exact rationals (`Rat`); the
  special values `NaN`/`Infinity` accepted by the `Decimal` constructor are
  modelled as parse failures, and `Decimal` context rounding is not modelled
  (all arithmetic is exact).
* `int(...)` applied to a float truncates toward zero and is modelled with
  `Int.tdiv`; Python integer floor division `//` is modelled with `Int.fdiv`.
* fallible operations return `Option`/`Except`; a `try/except` block is a
  `match` on the `Except` result.
* wall-clock defaults (`datetime.now()`) are not modelled; a timestamp field
  is `Option PyDateTime` and `none` stands for an absent/unparsed value.
-/

namespace DasBridge

/-- Whitespace test used by the embeddings of Python `str.strip` and
`str.split()` (no separator argument). -/
def isSpace (c : Char) : Bool := c.isWhitespace

/-- Remove leading and trailing whitespace from a character list. -/
def trimChars (cs : List Char) : List Char :=
  ((cs.dropWhile isSpace).reverse.dropWhile isSpace).reverse

/-- Embeds Python `str.strip()`. -/
def pyStrip (s : String) : String := ⟨trimChars s.data⟩

/-- Worker for `pySplit`: accumulates the current token (reversed). -/
def splitWSAux : List Char → List Char → List (List Char)
  | [], acc => if acc.isEmpty then [] else [acc.reverse]
  | c :: rest, acc =>
    if isSpace c then
      if acc.isEmpty then splitWSAux rest [] else acc.reverse :: splitWSAux rest []
    else
      splitWSAux rest (c :: acc)

/-- Embeds Python `str.split()` with no argument: split on whitespace runs,
discarding empty tokens. -/
def pySplit (s : String) : List String := (splitWSAux s.data []).map (⟨·⟩)

/-- Character-list prefix test. -/
def prefixChars : List Char → List Char → Bool
  | [], _ => true
  | _ :: _, [] => false
  | p :: ps, c :: cs => p = c && prefixChars ps cs

/-- Embeds Python `str.startswith`. -/
def pyStartsWith (s p : String) : Bool := prefixChars p.data s.data

/-- Embeds the Python slice `s[n:]` (by code point). -/
def pyDropChars (s : String) (n : Nat) : String := ⟨s.data.drop n⟩

/-- Embeds Python `str.upper()` (ASCII case mapping). -/
def pyUpper (s : String) : String := ⟨s.data.map Char.toUpper⟩

/-- Numeric value of a digit string (most significant first). -/
def digitsVal (cs : List Char) : Nat :=
  cs.foldl (fun a c => a * 10 + (c.toNat - 48)) 0

/-- Nonempty and all characters are ASCII digits. -/
def allDigits (cs : List Char) : Bool := !cs.isEmpty && cs.all Char.isDigit

/-- Embeds Python `int(str)`: surrounding whitespace, optional sign, a
nonempty run of digits; anything else raises `ValueError`, modelled as
`none`. -/
def pyInt (s : String) : Option Int :=
  match trimChars s.data with
  | '-' :: rest => if allDigits rest then some (-(digitsVal rest : Int)) else none
  | '+' :: rest => if allDigits rest then some ((digitsVal rest : Int)) else none
  | cs => if allDigits cs then some ((digitsVal cs : Int)) else none

/-- Leading digit run of a character list, and the remainder. -/
def takeDigits : List Char → List Char × List Char
  | [] => ([], [])
  | c :: cs =>
    if c.isDigit then
      let (d, r) := takeDigits cs
      (c :: d, r)
    else ([], c :: cs)

/-- Optional sign prefix: `-1` or `1` together with the remainder. -/
def parseSign : List Char → Int × List Char
  | '-' :: cs => (-1, cs)
  | '+' :: cs => (1, cs)
  | cs => (1, cs)

/-- Exponent suffix of a decimal literal: empty means exponent `0`;
`e`/`E` followed by an optionally signed digit run; anything else fails. -/
def parseExp : List Char → Option Int
  | [] => some 0
  | e :: cs =>
    if e = 'e' ∨ e = 'E' then
      let (sg, cs2) := parseSign cs
      if allDigits cs2 then some (sg * (digitsVal cs2 : Int)) else none
    else none

/-- Embeds the Python `Decimal(str)` constructor on the numeric forms
`[sign] (digits [. digits] | . digits) [(e|E) [sign] digits]` with
surrounding whitespace; other inputs are modelled as failures. -/
def pyDecimal (s : String) : Option Rat :=
  let cs0 := trimChars s.data
  let (sg, cs1) := parseSign cs0
  let (ip, rest) := takeDigits cs1
  let (fp, rest2) :=
    match rest with
    | '.' :: r => takeDigits r
    | r => ([], r)
  if ip.isEmpty ∧ fp.isEmpty then none
  else
    match parseExp rest2 with
    | none => none
    | some e =>
      some ((sg : Rat) * (digitsVal (ip ++ fp) : Rat) / (10 : Rat) ^ fp.length * (10 : Rat) ^ e)

/-- Embeds `utils.parse_decimal`: `Decimal(str(value))` with every failure
mapped to `None`. The embedding takes the string form directly. -/
def parse_decimal (value : Option String) : Option Rat :=
  match value with
  | none => none
  | some s => pyDecimal s

/-- A wall-clock-free stand-in for Python `datetime`: the six fields
produced by the four `strptime` formats used by `utils.parse_timestamp`. -/
structure PyDateTime where
  year : Nat
  month : Nat
  day : Nat
  hour : Nat
  minute : Nat
  second : Nat
deriving DecidableEq, Repr

/-- Field-range validity check applied by `strptime` (day-of-month is
checked against 31 only; month-specific lengths are not modelled). -/
def validDT (y mo d h mi s : Nat) : Bool :=
  1 ≤ mo && mo ≤ 12 && 1 ≤ d && d ≤ 31 && h ≤ 23 && mi ≤ 59 && s ≤ 61 && y ≤ 9999

/-- Exactly `n` digits from the front of the list, with the remainder. -/
def digitsN (n : Nat) (cs : List Char) : Option (Nat × List Char) :=
  let d := cs.take n
  if d.length = n ∧ allDigits d then some (digitsVal d, cs.drop n) else none

/-- Consume one expected literal character. -/
def expectChar (c : Char) : List Char → Option (List Char)
  | x :: xs => if x = c then some xs else none
  | [] => none

/-- `strptime` with format `%Y%m%d %H:%M:%S`. -/
def tryFormat1 (cs : List Char) : Option PyDateTime := do
  let (y, r) ← digitsN 4 cs
  let (mo, r) ← digitsN 2 r
  let (d, r) ← digitsN 2 r
  let r ← expectChar ' ' r
  let (h, r) ← digitsN 2 r
  let r ← expectChar ':' r
  let (mi, r) ← digitsN 2 r
  let r ← expectChar ':' r
  let (s, r) ← digitsN 2 r
  if r.isEmpty ∧ validDT y mo d h mi s then some ⟨y, mo, d, h, mi, s⟩ else none

/-- `strptime` with format `%Y-%m-%d %H:%M:%S`. -/
def tryFormat2 (cs : List Char) : Option PyDateTime := do
  let (y, r) ← digitsN 4 cs
  let r ← expectChar '-' r
  let (mo, r) ← digitsN 2 r
  let r ← expectChar '-' r
  let (d, r) ← digitsN 2 r
  let r ← expectChar ' ' r
  let (h, r) ← digitsN 2 r
  let r ← expectChar ':' r
  let (mi, r) ← digitsN 2 r
  let r ← expectChar ':' r
  let (s, r) ← digitsN 2 r
  if r.isEmpty ∧ validDT y mo d h mi s then some ⟨y, mo, d, h, mi, s⟩ else none

/-- `strptime` with format `%m/%d/%Y %H:%M:%S`. -/
def tryFormat3 (cs : List Char) : Option PyDateTime := do
  let (mo, r) ← digitsN 2 cs
  let r ← expectChar '/' r
  let (d, r) ← digitsN 2 r
  let r ← expectChar '/' r
  let (y, r) ← digitsN 4 r
  let r ← expectChar ' ' r
  let (h, r) ← digitsN 2 r
  let r ← expectChar ':' r
  let (mi, r) ← digitsN 2 r
  let r ← expectChar ':' r
  let (s, r) ← digitsN 2 r
  if r.isEmpty ∧ validDT y mo d h mi s then some ⟨y, mo, d, h, mi, s⟩ else none

/-- `strptime` with format `%Y%m%d%H%M%S`. -/
def tryFormat4 (cs : List Char) : Option PyDateTime := do
  let (y, r) ← digitsN 4 cs
  let (mo, r) ← digitsN 2 r
  let (d, r) ← digitsN 2 r
  let (h, r) ← digitsN 2 r
  let (mi, r) ← digitsN 2 r
  let (s, r) ← digitsN 2 r
  if r.isEmpty ∧ validDT y mo d h mi s then some ⟨y, mo, d, h, mi, s⟩ else none

/-- Embeds `utils.parse_timestamp`: try the four formats in order, `None`
when all fail.  Never raises. -/
def parse_timestamp (s : String) : Option PyDateTime :=
  (tryFormat1 s.data).orElse fun _ =>
    (tryFormat2 s.data).orElse fun _ =>
      (tryFormat3 s.data).orElse fun _ => tryFormat4 s.data

/-! ## Message classifier (`das_trader/utils.py`)

Each `parse_*_message` extractor in the source is a `try/except` around a
dict literal.  The only raise-capable operation inside the `try` blocks is
`int(...)`; `parse_decimal` and `parse_timestamp` swallow their own failures.
The body of a `try` block is embedded as an `Except String` computation and
the `except` handler as `catching`, which converts a raised message into the
`{"type": ..., "error": str(e), "raw": parts}` dict of the source. -/

/-- The `{"error": str(e), "raw": parts}` payload of an extractor's
`except` branch. -/
structure PErr where
  msg : String
  raw : List String
deriving DecidableEq, Repr

/-- Embeds a `try: ... except Exception as e: return {..., "error": str(e),
"raw": parts}` wrapper. -/
def catching (parts : List String) (body : Except String α) : Except PErr α :=
  match body with
  | .ok r => .ok r
  | .error e => .error ⟨e, parts⟩

/-- Embeds `int(parts[i]) if len(parts) > i else 0`: the raise of
`ValueError` by `int` is an `Except.error`. -/
def intAt (parts : List String) (i : Nat) : Except String Int :=
  match parts.get? i with
  | none => .ok 0
  | some t =>
    match pyInt t with
    | some n => .ok n
    | none => .error ("invalid literal for int() with base 10: " ++ t)

/-- Embeds `parse_decimal(parts[i]) if len(parts) > i else None`. -/
def decAt (parts : List String) (i : Nat) : Option Rat := (parts.get? i).bind pyDecimal

/-- Does the token at position `i`, when present, parse under `int(...)`?
(`true` also when the position is beyond the token list.) -/
def intOk (parts : List String) (i : Nat) : Bool :=
  match parts.get? i with
  | none => true
  | some t => (pyInt t).isSome

/-- The integer value an extractor records for position `i`: the parsed
token, or the default `0` when the position is missing. -/
def intValAt (parts : List String) (i : Nat) : Int :=
  match parts.get? i with
  | none => 0
  | some t => (pyInt t).getD 0

/-- Embeds `parts[i] if len(parts) > i else None`. -/
def strAt (parts : List String) (i : Nat) : Option String := parts.get? i

/-- Embeds the Python slice `parts[a:b]`. -/
def pySlice (parts : List String) (a b : Nat) : List String := (parts.drop a).take (b - a)

/-- Embeds `" ".join(l)`. -/
def joinSpace : List String → String
  | [] => ""
  | [s] => s
  | s :: rest => s ++ " " ++ joinSpace rest

/-- `%ORDER` record (success form of `parse_order_message`). -/
structure OrderRec where
  order_id : Option String
  symbol : Option String
  side : Option String
  quantity : Int
  price : Option Rat
  order_type : Option String
  status : Option String
  filled_qty : Int
  avg_price : Option Rat
  remaining_qty : Int
  timestamp : Option PyDateTime
deriving DecidableEq, Repr

/-- Embeds `utils.parse_order_message`. -/
def parse_order_message (parts : List String) : Except PErr OrderRec :=
  catching parts do
    let quantity ← intAt parts 3
    let filled_qty ← intAt parts 7
    let remaining_qty ← intAt parts 9
    return {
      order_id := strAt parts 0
      symbol := strAt parts 1
      side := strAt parts 2
      quantity := quantity
      price := decAt parts 4
      order_type := strAt parts 5
      status := strAt parts 6
      filled_qty := filled_qty
      avg_price := decAt parts 8
      remaining_qty := remaining_qty
      timestamp :=
        if parts.length > 11 then parse_timestamp (joinSpace (pySlice parts 10 12)) else none
    }

/-- `%OrderAct` record. -/
structure OrderActionRec where
  order_id : Option String
  action : Option String
  status : Option String
  details : Option String
deriving DecidableEq, Repr

/-- Embeds `utils.parse_order_action_message` (its `try` body contains no
raise-capable operation). -/
def parse_order_action_message (parts : List String) : Except PErr OrderActionRec :=
  catching parts (Except.ok {
    order_id := strAt parts 0
    action := strAt parts 1
    status := strAt parts 2
    details := if parts.length > 3 then some (joinSpace (parts.drop 3)) else none
  })

/-- `%POS` record. -/
structure PositionRec where
  symbol : Option String
  quantity : Int
  avg_cost : Option Rat
  current_price : Option Rat
  pnl : Option Rat
  pnl_percent : Option Rat
  market_value : Rat
deriving DecidableEq, Repr

/-- Embeds `utils.parse_position_message`; `market_value` reflects the
truthiness guard `qty * current_price if qty and current_price else 0`. -/
def parse_position_message (parts : List String) : Except PErr PositionRec :=
  catching parts do
    let qty ← intAt parts 1
    let avg_cost := if parts.length > 2 then decAt parts 2 else some 0
    let current_price := if parts.length > 3 then decAt parts 3 else some 0
    return {
      symbol := strAt parts 0
      quantity := qty
      avg_cost := avg_cost
      current_price := current_price
      pnl := decAt parts 4
      pnl_percent := decAt parts 5
      market_value :=
        match current_price with
        | some c => if qty ≠ 0 ∧ c ≠ 0 then (qty : Rat) * c else 0
        | none => 0
    }

/-- `$Quote` record. -/
structure QuoteRec where
  symbol : Option String
  bid : Option Rat
  ask : Option Rat
  last : Option Rat
  volume : Int
  bid_size : Int
  ask_size : Int
  timestamp : Option PyDateTime
deriving DecidableEq, Repr

/-- Embeds `utils.parse_quote_message`. -/
def parse_quote_message (parts : List String) : Except PErr QuoteRec :=
  catching parts do
    let volume ← intAt parts 4
    let bid_size ← intAt parts 5
    let ask_size ← intAt parts 6
    return {
      symbol := strAt parts 0
      bid := decAt parts 1
      ask := decAt parts 2
      last := decAt parts 3
      volume := volume
      bid_size := bid_size
      ask_size := ask_size
      timestamp :=
        if parts.length > 8 then parse_timestamp (joinSpace (pySlice parts 7 9)) else none
    }

/-- `$Lv2` record. -/
structure Level2Rec where
  symbol : Option String
  side : Option String
  price : Option Rat
  size : Int
  mmid : Option String
  timestamp : Option PyDateTime
deriving DecidableEq, Repr

/-- Embeds `utils.parse_level2_message`. -/
def parse_level2_message (parts : List String) : Except PErr Level2Rec :=
  catching parts do
    let size ← intAt parts 3
    return {
      symbol := strAt parts 0
      side := strAt parts 1
      price := decAt parts 2
      size := size
      mmid := strAt parts 4
      timestamp :=
        if parts.length > 6 then parse_timestamp (joinSpace (pySlice parts 5 7)) else none
    }

/-- `$T&S` record. -/
structure TimeSalesRec where
  symbol : Option String
  price : Option Rat
  size : Int
  timestamp : Option PyDateTime
  condition : Option String
deriving DecidableEq, Repr

/-- Embeds `utils.parse_time_sales_message`. -/
def parse_time_sales_message (parts : List String) : Except PErr TimeSalesRec :=
  catching parts do
    let size ← intAt parts 2
    return {
      symbol := strAt parts 0
      price := decAt parts 1
      size := size
      timestamp := (strAt parts 3).bind parse_timestamp
      condition := strAt parts 4
    }

/-- `$Chart`/`$Bar` record; `opn` embeds the source field `open` (a Lean
keyword). -/
structure ChartRec where
  symbol : Option String
  chart_type : Option String
  opn : Option Rat
  high : Option Rat
  low : Option Rat
  close : Option Rat
  volume : Int
  timestamp : Option PyDateTime
deriving DecidableEq, Repr

/-- Embeds `utils.parse_chart_message`. -/
def parse_chart_message (parts : List String) : Except PErr ChartRec :=
  catching parts do
    let volume ← intAt parts 6
    return {
      symbol := strAt parts 0
      chart_type := strAt parts 1
      opn := decAt parts 2
      high := decAt parts 3
      low := decAt parts 4
      close := decAt parts 5
      volume := volume
      timestamp := (strAt parts 7).bind parse_timestamp
    }

/-- `%BP` record. -/
structure BuyingPowerRec where
  buying_power : Option Rat
  day_trading_bp : Option Rat
  overnight_bp : Option Rat
  cash : Option Rat
deriving DecidableEq, Repr

/-- Embeds `utils.parse_buying_power_message` (no raise-capable operation). -/
def parse_buying_power_message (parts : List String) : Except PErr BuyingPowerRec :=
  catching parts (Except.ok {
    buying_power := decAt parts 0
    day_trading_bp := decAt parts 1
    overnight_bp := decAt parts 2
    cash := decAt parts 3
  })

/-- `%SHORTINFO` record. -/
structure ShortInfoRec where
  symbol : Option String
  shortable : Bool
  rate : Option Rat
  available_shares : Int
deriving DecidableEq, Repr

/-- Embeds `utils.parse_short_info_message`. -/
def parse_short_info_message (parts : List String) : Except PErr ShortInfoRec :=
  catching parts do
    let available_shares ← intAt parts 3
    return {
      symbol := strAt parts 0
      shortable :=
        match strAt parts 1 with
        | some t => pyUpper t = "YES"
        | none => false
      rate := decAt parts 2
      available_shares := available_shares
    }

/-- `%LOCATEINFO` record. -/
structure LocateInfoRec where
  symbol : Option String
  located : Bool
  quantity : Int
  rate : Option Rat
  locate_id : Option String
deriving DecidableEq, Repr

/-- Embeds `utils.parse_locate_info_message`. -/
def parse_locate_info_message (parts : List String) : Except PErr LocateInfoRec :=
  catching parts do
    let quantity ← intAt parts 2
    return {
      symbol := strAt parts 0
      located :=
        match strAt parts 1 with
        | some t => pyUpper t = "YES"
        | none => false
      quantity := quantity
      rate := decAt parts 3
      locate_id := strAt parts 4
    }

/-- `%SLRET` record. -/
structure LocateReturnRec where
  symbol : Option String
  quantity : Int
  rate : Option Rat
  available : Bool
  route : Option String
deriving DecidableEq, Repr

/-- Embeds `utils.parse_locate_return_message`. -/
def parse_locate_return_message (parts : List String) : Except PErr LocateReturnRec :=
  catching parts do
    let quantity ← intAt parts 1
    return {
      symbol := strAt parts 0
      quantity := quantity
      rate := decAt parts 2
      available :=
        match strAt parts 3 with
        | some t => pyUpper t = "YES"
        | none => false
      route := strAt parts 4
    }

/-- `%SLOrder` record. -/
structure LocateOrderRec where
  locate_id : Option String
  symbol : Option String
  status : Option String
  details : Option String
  located : Bool
deriving DecidableEq, Repr

/-- Embeds `utils.parse_locate_order_message` (no raise-capable operation). -/
def parse_locate_order_message (parts : List String) : Except PErr LocateOrderRec :=
  catching parts (Except.ok {
    locate_id := strAt parts 0
    symbol := strAt parts 1
    status := strAt parts 2
    details := if parts.length > 3 then some (joinSpace (parts.drop 3)) else none
    located :=
      match strAt parts 2 with
      | some t => pyUpper t = "ACCEPTED"
      | none => false
  })

/-- `$SLAvailQueryRet` record. -/
structure LocateAvailRec where
  account : Option String
  symbol : Option String
  available_shares : Int
  rate : Option Rat
deriving DecidableEq, Repr

/-- Embeds `utils.parse_locate_avail_message`. -/
def parse_locate_avail_message (parts : List String) : Except PErr LocateAvailRec :=
  catching parts do
    let available_shares ← intAt parts 2
    return {
      account := strAt parts 0
      symbol := strAt parts 1
      available_shares := available_shares
      rate := decAt parts 3
    }

/-- `$LDLU` record. -/
structure LimitDownUpRec where
  symbol : Option String
  limit_down : Option Rat
  limit_up : Option Rat
deriving DecidableEq, Repr

/-- Embeds `utils.parse_limit_down_up_message` (no raise-capable operation). -/
def parse_limit_down_up_message (parts : List String) : Except PErr LimitDownUpRec :=
  catching parts (Except.ok {
    symbol := strAt parts 0
    limit_down := decAt parts 1
    limit_up := decAt parts 2
  })

/-- `%ITRADE` record. -/
structure WatchTradeRec where
  trade_id : Option String
  symbol : Option String
  side : Option String
  quantity : Int
  price : Option Rat
  route : Option String
  timestamp : Option PyDateTime
  order_id : Option String
deriving DecidableEq, Repr

/-- Embeds `utils.parse_watch_trade_message`. -/
def parse_watch_trade_message (parts : List String) : Except PErr WatchTradeRec :=
  catching parts do
    let quantity ← intAt parts 3
    return {
      trade_id := strAt parts 0
      symbol := strAt parts 1
      side := strAt parts 2
      quantity := quantity
      price := decAt parts 4
      route := strAt parts 5
      timestamp := (strAt parts 6).bind parse_timestamp
      order_id := strAt parts 7
    }

instance {ε α : Type} [DecidableEq ε] [DecidableEq α] : DecidableEq (Except ε α) := fun a b =>
  match a, b with
  | .ok x, .ok y =>
    if h : x = y then .isTrue (congrArg _ h) else .isFalse (fun c => h (Except.ok.inj c))
  | .error x, .error y =>
    if h : x = y then .isTrue (congrArg _ h) else .isFalse (fun c => h (Except.error.inj c))
  | .ok _, .error _ => .isFalse (fun c => Except.noConfusion c)
  | .error _, .ok _ => .isFalse (fun c => Except.noConfusion c)

/-- The tagged union of structured event records produced by
`utils.parse_message` (the dict key `"type"` of the source becomes the
constructor; the watch-mode variants reuse the order/position record shapes,
mirroring `result["type"] = "WATCH_..."`). -/
inductive ParsedEvent where
  | order (r : Except PErr OrderRec)
  | orderAction (r : Except PErr OrderActionRec)
  | position (r : Except PErr PositionRec)
  | buyingPower (r : Except PErr BuyingPowerRec)
  | shortInfo (r : Except PErr ShortInfoRec)
  | locateInfo (r : Except PErr LocateInfoRec)
  | locateReturn (r : Except PErr LocateReturnRec)
  | locateOrder (r : Except PErr LocateOrderRec)
  | watchOrder (r : Except PErr OrderRec)
  | watchPosition (r : Except PErr PositionRec)
  | watchTrade (r : Except PErr WatchTradeRec)
  | quote (r : Except PErr QuoteRec)
  | level2 (r : Except PErr Level2Rec)
  | timeSales (r : Except PErr TimeSalesRec)
  | chart (r : Except PErr ChartRec)
  | limitDownUp (r : Except PErr LimitDownUpRec)
  | locateAvail (r : Except PErr LocateAvailRec)
  | errorMsg (message : String)
  | warningMsg (message : String)
  | infoMsg (message : String)
  | genericControl (msgType : String) (data : List String)
  | genericData (msgType : String) (data : List String)
  | unknown (raw : String)
deriving DecidableEq, Repr

/-- Embeds `utils.parse_control_message` (`%`-prefixed lines). -/
def parse_control_message (message : String) : ParsedEvent :=
  match pySplit message with
  | [] => .unknown message
  | msg_type :: rest =>
    if msg_type = "%ORDER" then .order (parse_order_message rest)
    else if msg_type = "%OrderAct" then .orderAction (parse_order_action_message rest)
    else if msg_type = "%POS" then .position (parse_position_message rest)
    else if msg_type = "%BP" then .buyingPower (parse_buying_power_message rest)
    else if msg_type = "%SHORTINFO" then .shortInfo (parse_short_info_message rest)
    else if msg_type = "%LOCATEINFO" then .locateInfo (parse_locate_info_message rest)
    else if msg_type = "%SLRET" then .locateReturn (parse_locate_return_message rest)
    else if msg_type = "%SLOrder" then .locateOrder (parse_locate_order_message rest)
    else if msg_type = "%IORDER" then .watchOrder (parse_order_message rest)
    else if msg_type = "%IPOS" then .watchPosition (parse_position_message rest)
    else if msg_type = "%ITRADE" then .watchTrade (parse_watch_trade_message rest)
    else .genericControl msg_type rest

/-- Embeds `utils.parse_data_message` (`$`-prefixed lines). -/
def parse_data_message (message : String) : ParsedEvent :=
  match pySplit message with
  | [] => .unknown message
  | msg_type :: rest =>
    if msg_type = "$Quote" then .quote (parse_quote_message rest)
    else if msg_type = "$Lv2" then .level2 (parse_level2_message rest)
    else if msg_type = "$T&S" then .timeSales (parse_time_sales_message rest)
    else if msg_type = "$Chart" ∨ msg_type = "$Bar" then .chart (parse_chart_message rest)
    else if msg_type = "$LDLU" then .limitDownUp (parse_limit_down_up_message rest)
    else if msg_type = "$SLAvailQueryRet" then .locateAvail (parse_locate_avail_message rest)
    else .genericData msg_type rest

/-- Embeds `utils.parse_message`: strip, classify by prefix, dispatch. -/
def parse_message (message : String) : ParsedEvent :=
  let m := pyStrip message
  if pyStartsWith m "%" then parse_control_message m
  else if pyStartsWith m "$" then parse_data_message m
  else if pyStartsWith m "ERROR" then .errorMsg (pyStrip (pyDropChars m 6))
  else if pyStartsWith m "WARNING" then .warningMsg (pyStrip (pyDropChars m 8))
  else if pyStartsWith m "INFO" then .infoMsg (pyStrip (pyDropChars m 5))
  else .unknown m

/-- The `"raw"` payload of one extractor result, when it is the error
form. -/
def rawErr {α : Type} : Except PErr α → Option (List String)
  | .ok _ => none
  | .error e => some e.raw

/-- The `"raw"` payload of an error-marked event, when the event is one. -/
def errorRawOf : ParsedEvent → Option (List String)
  | .order r => rawErr r
  | .orderAction r => rawErr r
  | .position r => rawErr r
  | .buyingPower r => rawErr r
  | .shortInfo r => rawErr r
  | .locateInfo r => rawErr r
  | .locateReturn r => rawErr r
  | .locateOrder r => rawErr r
  | .watchOrder r => rawErr r
  | .watchPosition r => rawErr r
  | .watchTrade r => rawErr r
  | .quote r => rawErr r
  | .level2 r => rawErr r
  | .timeSales r => rawErr r
  | .chart r => rawErr r
  | .limitDownUp r => rawErr r
  | .locateAvail r => rawErr r
  | .errorMsg _ => none
  | .warningMsg _ => none
  | .infoMsg _ => none
  | .genericControl _ _ => none
  | .genericData _ _ => none
  | .unknown _ => none

/-! ## Market data cache (`das_trader/market_data.py`)

`MarketDataManager`'s mutable dictionaries are embedded as total functions
from symbol to `Option`-wrapped per-symbol state (`none` = key absent, so
`defaultdict` reads use `getD` and guarded `del` sets the key to `none`).
Only the fields the handlers and `unsubscribe_quote` touch are modelled;
callback lists and the connection object are external collaborators. -/

/-- An entry of the Level 2 book (`Level2Quote` dataclass).  `price` and
`mmid` keep the nullable types that `message.get` can produce; the
`datetime.now()` default for a missing timestamp is not modelled. -/
structure Level2Entry where
  symbol : String
  side : String
  price : Option Rat
  size : Int
  mmid : Option String
  timestamp : Option PyDateTime
deriving DecidableEq, Repr

/-- The two sides of one symbol's Level 2 book
(`defaultdict(lambda: \x7b"BID": [], "ASK": []\x7d)` entry). -/
structure SideBooks where
  bid : List Level2Entry
  ask : List Level2Entry
deriving DecidableEq, Repr

/-- The empty per-symbol book created on first `defaultdict` access. -/
def SideBooks.empty : SideBooks := ⟨[], []⟩

/-- Read one side of a book by its string key (only ever called with
`"BID"` or `"ASK"`). -/
def SideBooks.getSide (b : SideBooks) (side : String) : List Level2Entry :=
  if side = "BID" then b.bid else b.ask

/-- Write one side of a book by its string key. -/
def SideBooks.setSide (b : SideBooks) (side : String) (l : List Level2Entry) : SideBooks :=
  if side = "BID" then { b with bid := l } else { b with ask := l }

/-- `TimeSale` dataclass (only the fields the cache stores). -/
structure TimeSaleEntry where
  symbol : String
  price : Option Rat
  size : Int
  timestamp : Option PyDateTime
  condition : Option String
deriving DecidableEq, Repr

/-- Cached Level 1 quote (`Quote` dataclass fields the claims read). -/
structure CachedQuote where
  symbol : String
  bid : Option Rat
  ask : Option Rat
  last : Option Rat
  bid_size : Int
  ask_size : Int
  volume : Int
deriving DecidableEq, Repr

/-- The mutable cache state of `MarketDataManager`. -/
structure MDState where
  quotes : String → Option CachedQuote
  level2_data : String → Option SideBooks
  time_sales : String → Option (List TimeSaleEntry)
  quote_subscriptions : String → Bool
  level2_subscriptions : String → Bool
  time_sales_subscriptions : String → Bool

/-- Fresh manager state: all dictionaries empty, no subscriptions. -/
def MDState.init : MDState :=
  ⟨fun _ => none, fun _ => none, fun _ => none, fun _ => false, fun _ => false, fun _ => false⟩

/-- The book list `self._level2_data[symbol][side]` under `defaultdict`
semantics. -/
def MDState.bookAt (st : MDState) (symbol side : String) : List Level2Entry :=
  ((st.level2_data symbol).getD SideBooks.empty).getSide side

/-- Embeds `MarketDataManager._handle_level2_message`.  The handler
receives the classifier's LEVEL2 output (error dicts included: they carry
no `symbol` key, so `message.get("symbol")` is `None` and the handler
returns without touching the cache).  A record whose `side` is `None`
makes `None.upper()` raise `AttributeError`; the dispatch loop catches
callback exceptions, so the cache state is likewise unchanged there. -/
def handle_level2_message (st : MDState) (message : Except PErr Level2Rec) : MDState :=
  match message with
  | .error _ => st
  | .ok rec =>
    match rec.symbol with
    | none => st
    | some sym0 =>
      if sym0 = "" then st
      else
        let symbol := pyUpper sym0
        match rec.side with
        | none => st
        | some side0 =>
          let side := pyUpper side0
          if side = "BID" ∨ side = "ASK" then
            let q : Level2Entry :=
              { symbol := symbol, side := side, price := rec.price, size := rec.size,
                mmid := rec.mmid, timestamp := rec.timestamp }
            let book := (st.bookAt symbol side).filter (fun x => x.mmid ≠ q.mmid)
            let book := if q.size > 0 then book ++ [q] else book
            { st with
              level2_data := fun s =>
                if s = symbol then
                  some (((st.level2_data symbol).getD SideBooks.empty).setSide side book)
                else st.level2_data s }
          else st

/-- Deliver a finite sequence of classified LEVEL2 events to the cache, in
wire order. -/
def runLevel2 (st : MDState) (events : List (Except PErr Level2Rec)) : MDState :=
  events.foldl handle_level2_message st

/-- Number of book entries carrying a given market-maker id. -/
def mmCount (book : List Level2Entry) (m : Option String) : Nat :=
  book.countP (fun x => x.mmid = m)

/-- `MarketDataLevel` enum values used by subscribe/unsubscribe. -/
inductive MDLevel where
  | level1
  | level2
  | time_sales
deriving DecidableEq, Repr

/-- Embeds the cache mutation of `MarketDataManager.unsubscribe_quote`.
`sendOk` tells whether `send_command` succeeded: on a raise the `except`
branch only logs, so the state is returned unchanged and the call itself
never raises.  The guarded `del` statements become updates to `none`. -/
def unsubscribe_quote (st : MDState) (symbol : String) (level : MDLevel) (sendOk : Bool) :
    MDState :=
  let symbol := pyUpper symbol
  if !sendOk then st
  else
    match level with
    | .level1 =>
      { st with quote_subscriptions := fun s => if s = symbol then false else st.quote_subscriptions s }
    | .level2 =>
      { st with
        level2_subscriptions := fun s => if s = symbol then false else st.level2_subscriptions s
        level2_data := fun s => if s = symbol then none else st.level2_data s }
    | .time_sales =>
      { st with
        time_sales_subscriptions := fun s =>
          if s = symbol then false else st.time_sales_subscriptions s
        time_sales := fun s => if s = symbol then none else st.time_sales s }

/-- Pointwise equality of cache states (the states hold functions, so the
observable state is compared key by key). -/
def MDState.eqv (a b : MDState) : Prop :=
  (∀ s, a.quotes s = b.quotes s) ∧
  (∀ s, a.level2_data s = b.level2_data s) ∧
  (∀ s, a.time_sales s = b.time_sales s) ∧
  (∀ s, a.quote_subscriptions s = b.quote_subscriptions s) ∧
  (∀ s, a.level2_subscriptions s = b.level2_subscriptions s) ∧
  (∀ s, a.time_sales_subscriptions s = b.time_sales_subscriptions s)

/-- A concrete cached time-sale used to exercise `unsubscribe_quote`. -/
def sampleTS : TimeSaleEntry := ⟨"AAPL", none, 10, none, none⟩

/-- A concrete Level 2 book entry for the same exercise. -/
def sampleEntry : Level2Entry := ⟨"AAPL", "BID", none, 100, some "MM1", none⟩

/-- The per-symbol book holding `sampleEntry` on the bid side. -/
def sampleBooks : SideBooks := ⟨[sampleEntry], []⟩

/-- A concrete cached quote for the same exercise. -/
def sampleQuote : CachedQuote := ⟨"AAPL", none, none, none, 0, 0, 1000⟩

/-- A cache state with quote, Level 2 and time-sales data for AAPL. -/
def sampleState : MDState :=
  { quotes := fun s => if s = "AAPL" then some sampleQuote else none
    level2_data := fun s => if s = "AAPL" then some sampleBooks else none
    time_sales := fun s => if s = "AAPL" then some [sampleTS] else none
    quote_subscriptions := fun _ => false
    level2_subscriptions := fun s => s = "AAPL"
    time_sales_subscriptions := fun s => s = "AAPL" }

/-! ## P&L (`utils.calculate_pnl`) -/

/-- Result dict of `utils.calculate_pnl`; the source returns different key
sets on the two paths, so every field is optional. -/
structure PnLResult where
  realized_pnl : Option Rat
  unrealized_pnl : Option Rat
  pnl_percent : Option Rat
  position_cost : Option Rat
  current_value : Option Rat
deriving DecidableEq, Repr

/-- Embeds `utils.calculate_pnl` with `Decimal` arithmetic modelled as
exact rational arithmetic. -/
def calculate_pnl (quantity : Int) (avg_cost current_price : Rat) : PnLResult :=
  if quantity = 0 then
    { realized_pnl := some 0, unrealized_pnl := some 0, pnl_percent := some 0,
      position_cost := none, current_value := none }
  else
    let position_cost : Rat := quantity * avg_cost
    let current_value : Rat := quantity * current_price
    let unrealized_pnl := current_value - position_cost
    let pnl_percent := if position_cost ≠ 0 then unrealized_pnl / position_cost * 100 else 0
    { realized_pnl := none, unrealized_pnl := some unrealized_pnl,
      pnl_percent := some pnl_percent, position_cost := some position_cost,
      current_value := some current_value }

/-! ## Smart locate analysis (`test_smart_locate.py`, `SmartLocateManager`)

`analyze_locate` is an async method whose external effects are one optional
quote fetch and one locate-price inquiry; both are passed in as explicit
inputs.  Python floats are modelled as exact rationals; `int(float)`
truncates toward zero (`ratTrunc`) and integer `//` is floor division
(`Int.fdiv`).  The human-readable strings appended to `reasons` are
modelled as tagged values (`LocateReason`) carrying the same data. -/

/-- Embeds `int(x)` on a float value: truncation toward zero. -/
def ratTrunc (q : Rat) : Int := Int.tdiv q.num (q.den : Int)

/-- Constructor arguments of `SmartLocateManager`, with its defaults. -/
structure LocateConfig where
  max_volume_pct : Rat := 1
  max_cost_pct : Rat := 3/2
  max_total_cost : Rat := 5/2
  block_size : Int := 100
deriving DecidableEq, Repr

/-- The slice of a cached quote that `analyze_locate` reads. -/
structure LocateQuoteView where
  last : Rat
  volume : Int
deriving DecidableEq, Repr

/-- The slice of the `inquire_locate_price` result dict that
`analyze_locate` reads (`rate = none` models an absent or `None` value,
which `locate_info.get("rate", 0) or 0` turns into `0`). -/
structure LocateInfoView where
  rate : Option Rat
  available : Bool
deriving DecidableEq, Repr

/-- Outcome of the `await self.client.inquire_locate_price(...)` call:
either it raised or it returned a possibly-`None` dict. -/
inductive InquiryOutcome where
  | raised (e : String)
  | returned (info : Option LocateInfoView)
deriving DecidableEq, Repr

/-- The strings appended to `analysis["reasons"]`, as tags carrying the
interpolated data. -/
inductive LocateReason where
  | volumeReduced (fromShares toShares : Int)
  | noVolumeData
  | noPricing
  | etb
  | invalidZeroRate
  | totalCostExceeded (cost maxCost : Rat)
  | costPctExceeded (pct maxPct : Rat)
  | tier (name : String) (cost pct : Rat)
  | inquiryError (e : String)
deriving DecidableEq, Repr

/-- The `analysis` result dict of `analyze_locate`.  Keys that the source
assigns on every path are plain fields; keys assigned only on some paths
are `Option` with `none` for "absent". -/
structure LocateAnalysis where
  symbol : String
  desired_shares : Int
  success : Bool
  recommendation : String
  reasons : List LocateReason
  volume : Int
  current_price : Rat
  allowed_shares : Int
  locate_shares : Int
  locate_rate : Option Rat
  available : Option Bool
  is_etb : Option Bool
  locate_total_cost : Option Rat
  position_value : Option Rat
  cost_pct_of_position : Option Rat
deriving DecidableEq, Repr

/-- Step 1 of `analyze_locate`: the effective current price and daily
volume (`1.0` fallback price and zero volume when no usable quote). -/
def locate_price_volume (currentPrice : Option Rat) (quote : Option LocateQuoteView) :
    Rat × Int :=
  match currentPrice with
  | none =>
    match quote with
    | some q => if q.last > 0 then (q.last, q.volume) else ((1 : Rat), (0 : Int))
    | none => ((1 : Rat), (0 : Int))
  | some p => (p, (match quote with | some q => q.volume | none => 0))

/-- Step 2 of `analyze_locate`: the volume-capped share count and the
reasons it appends. -/
def locate_volume_control (cfg : LocateConfig) (desired_shares volume : Int) :
    Int × List LocateReason :=
  if volume > 0 then
    let max_shares_by_volume := ratTrunc ((volume : Rat) * (cfg.max_volume_pct / 100))
    let allowed := min desired_shares max_shares_by_volume
    if desired_shares > max_shares_by_volume then
      (allowed, [LocateReason.volumeReduced desired_shares allowed])
    else (allowed, ([] : List LocateReason))
  else
    (min desired_shares 100, [LocateReason.noVolumeData])

/-- Rounding of the allowed shares up to the block size
(`((allowed + bs - 1) // bs) * bs`, with the `locate_shares <
allowed_shares` fallback of the source). -/
def locate_block_shares (cfg : LocateConfig) (allowed_shares : Int) : Int :=
  let ls0 := Int.fdiv (allowed_shares + cfg.block_size - 1) cfg.block_size * cfg.block_size
  if ls0 < allowed_shares then cfg.block_size else ls0

/-- Embeds `SmartLocateManager.analyze_locate`. -/
def analyze_locate (cfg : LocateConfig) (symbol : String) (desired_shares : Int)
    (currentPrice : Option Rat) (quote : Option LocateQuoteView)
    (inquiry : InquiryOutcome) : LocateAnalysis :=
  -- Step 1: current price and daily volume.
  let current_price := (locate_price_volume currentPrice quote).1
  let volume := (locate_price_volume currentPrice quote).2
  -- Step 2: volume control.
  let allowed_shares := (locate_volume_control cfg desired_shares volume).1
  let reasons1 := (locate_volume_control cfg desired_shares volume).2
  -- Round to block size.
  let locate_shares := locate_block_shares cfg allowed_shares
  let base : LocateAnalysis :=
    { symbol := symbol, desired_shares := desired_shares, success := false,
      recommendation := "REJECT", reasons := reasons1, volume := volume,
      current_price := current_price, allowed_shares := allowed_shares,
      locate_shares := locate_shares, locate_rate := none, available := none,
      is_etb := none, locate_total_cost := none, position_value := none,
      cost_pct_of_position := none }
  -- Step 3: locate pricing.
  match inquiry with
  | .raised e => { base with reasons := base.reasons ++ [.inquiryError e] }
  | .returned none => { base with reasons := base.reasons ++ [.noPricing] }
  | .returned (some info) =>
    let rate := info.rate.getD 0
    let base := { base with locate_rate := some rate, available := some info.available }
    let is_etb : Bool := rate = 0 ∨ rate < 1 / 100000
    let base := { base with is_etb := some is_etb }
    if is_etb then
      { base with
        locate_total_cost := some 0
        cost_pct_of_position := some 0
        recommendation := "APPROVE"
        success := true
        reasons := base.reasons ++ [.etb] }
    else if rate = 0 then
      { base with reasons := base.reasons ++ [.invalidZeroRate] }
    else
      -- Step 4: cost evaluation.
      let total_cost := rate * (locate_shares : Rat)
      let position_value := current_price * (locate_shares : Rat)
      let cost_pct := if position_value > 0 then total_cost / position_value * 100 else 999
      let base :=
        { base with
          locate_total_cost := some total_cost
          position_value := some position_value
          cost_pct_of_position := some cost_pct }
      let rs :=
        (if total_cost > cfg.max_total_cost then
          [LocateReason.totalCostExceeded total_cost cfg.max_total_cost]
        else []) ++
        (if cost_pct > cfg.max_cost_pct then
          [LocateReason.costPctExceeded cost_pct cfg.max_cost_pct]
        else [])
      if rs ≠ [] then
        { base with recommendation := "REJECT", reasons := base.reasons ++ rs }
      else
        let tierName :=
          if total_cost < 1 then "VERY CHEAP"
          else if cost_pct < 1 / 2 then "CHEAP"
          else if cost_pct < 1 then "MODERATE"
          else "ACCEPTABLE"
        { base with
          recommendation := "APPROVE"
          success := true
          reasons := base.reasons ++ [.tier tierName total_cost cost_pct] }

/-! ## Locate negotiation serialization guard

Modelled from the spec: the `inquire_locate_price` implementation (the
client's Locate Negotiation State Machine) is not under `src/` — only its
callers are.  Per the spec it enforces at most one outstanding locate-price
inquiry at a time, globally, with a cooldown between the completion of one
inquiry and the start of the next; a second caller is suspended until the
cooldown elapses.  The guard is embedded as a transition system over
abstract time. -/

/-- Modelled from the spec: the global serialization state of the Locate
Negotiation Machine — how many inquiries are in flight and when the last
one completed (`none` = no inquiry has completed yet). -/
structure LocateGuard where
  outstanding : Nat
  lastDone : Option Nat
deriving DecidableEq, Repr

/-- Guard state before any inquiry. -/
def LocateGuard.init : LocateGuard := ⟨0, none⟩

/-- Events of the serialization guard: an inquiry starts or completes at an
abstract time `t`. -/
inductive GuardEvent where
  | start (t : Nat)
  | finish (t : Nat)
deriving DecidableEq, Repr

/-- Has the cooldown after the last completed inquiry elapsed at time `t`? -/
def cooldownOver (cooldown : Nat) (lastDone : Option Nat) (t : Nat) : Bool :=
  match lastDone with
  | none => true
  | some d => d + cooldown ≤ t

/-- Modelled from the spec: one transition of the serialization guard.  A
start is admitted only when no inquiry is outstanding and the cooldown has
elapsed; `none` means the event cannot fire yet (the caller stays
suspended). -/
def guardStep (cooldown : Nat) (s : LocateGuard) : GuardEvent → Option LocateGuard
  | .start t =>
    if s.outstanding = 0 ∧ cooldownOver cooldown s.lastDone t then
      some ⟨s.outstanding + 1, s.lastDone⟩
    else none
  | .finish t =>
    if 0 < s.outstanding then some ⟨s.outstanding - 1, some t⟩ else none

/-- Run the guard over a finite admitted event sequence. -/
def guardRun (cooldown : Nat) (s : LocateGuard) : List GuardEvent → Option LocateGuard
  | [] => some s
  | e :: es =>
    match guardStep cooldown s e with
    | none => none
    | some s2 => guardRun cooldown s2 es

/-! ## Theorems -/

/-- One guard step keeps the outstanding-inquiry count at most one. -/
lemma guardStep_outstanding_le (cd : Nat) (s s' : LocateGuard) (e : GuardEvent)
    (h0 : s.outstanding ≤ 1) (h : guardStep cd s e = some s') : s'.outstanding ≤ 1 := by
  cases e with
  | start t =>
    simp only [guardStep] at h
    split_ifs at h with hc
    injection h with h2
    subst h2
    simp [hc.1]
  | finish t =>
    simp only [guardStep] at h
    split_ifs at h with hc
    injection h with h2
    subst h2
    simp only []
    omega

/-- The outstanding-inquiry bound is an inductive invariant of guard runs. -/
lemma guardRun_outstanding_le (cd : Nat) (evs : List GuardEvent) (s0 s : LocateGuard)
    (h0 : s0.outstanding ≤ 1) (h : guardRun cd s0 evs = some s) : s.outstanding ≤ 1 := by
  induction evs generalizing s0 with
  | nil =>
    simp only [guardRun] at h
    injection h with h2
    subst h2
    exact h0
  | cons e es ih =>
    simp only [guardRun] at h
    cases hs : guardStep cd s0 e with
    | none => rw [hs] at h; exact absurd h (by simp)
    | some s1 =>
      rw [hs] at h
      exact ih s1 (guardStep_outstanding_le cd s0 s1 e h0 hs) h

/-- Guard runs decompose over list append. -/
lemma guardRun_append (cd : Nat) (s : LocateGuard) (l1 l2 : List GuardEvent) :
    guardRun cd s (l1 ++ l2) = (guardRun cd s l1).bind fun s1 => guardRun cd s1 l2 := by
  induction l1 generalizing s with
  | nil => simp [guardRun]
  | cons e es ih =>
    simp only [List.cons_append, guardRun]
    cases guardStep cd s e <;> simp [ih]

/-- **C7** (spec-modelled) In every admitted execution of the locate
negotiation serialization guard, at most one locate-price inquiry is
outstanding at any point, and an inquiry can start only when none is
outstanding and the cooldown after the last completed inquiry has elapsed
(a second caller is held until then). -/
theorem locate_guard_serialization (cd : Nat) (evs : List GuardEvent) (s : LocateGuard) :
    (guardRun cd .init evs = some s → s.outstanding ≤ 1) ∧
    (∀ pre t, evs = pre ++ [.start t] → guardRun cd .init evs = some s →
      ∃ s1, guardRun cd .init pre = some s1 ∧ s1.outstanding = 0 ∧
        cooldownOver cd s1.lastDone t = true) := by
  constructor
  · exact fun h => guardRun_outstanding_le cd evs _ s (by simp [LocateGuard.init]) h
  · rintro pre t rfl h
    rw [guardRun_append] at h
    cases h1 : guardRun cd .init pre with
    | none => rw [h1] at h; exact absurd h (by simp)
    | some s1 =>
      rw [h1] at h
      cases hs : guardStep cd s1 (.start t) with
      | none => simp [guardRun, hs] at h
      | some s2 =>
        simp only [guardStep] at hs
        split_ifs at hs with hc
        exact ⟨s1, rfl, hc.1, hc.2⟩

/-- Reading any side of a book after writing one side: the written list if
the two side keys agree on the `"BID"` test, the old side otherwise. -/
lemma getSide_setSide (b : SideBooks) (ks s : String) (l : List Level2Entry) :
    (b.setSide ks l).getSide s =
      if (decide (s = "BID") = decide (ks = "BID")) then l else b.getSide s := by
  simp only [SideBooks.setSide, SideBooks.getSide]
  by_cases h1 : ks = "BID" <;> by_cases h2 : s = "BID" <;> simp [h1, h2]

/-- The filtered book holds no entry for the incoming maker id. -/
lemma mmCount_filter_self (book : List Level2Entry) (mm : Option String) :
    mmCount (book.filter fun x => x.mmid ≠ mm) mm = 0 := by
  rw [mmCount, List.countP_eq_zero]
  intro a ha
  have := (List.mem_filter.mp ha).2
  simpa using this

/-- A single-entry list contributes at most one to any maker count. -/
lemma countP_singleton_le_one (q : Level2Entry) (m : Option String) :
    List.countP (fun x => decide (x.mmid = m)) [q] ≤ 1 := by
  simp only [List.countP_cons, List.countP_nil]
  split_ifs <;> omega

/-- Replacing a maker's entries keeps every maker's entry count at most
one. -/
lemma mmCount_update_le_one (book : List Level2Entry) (q : Level2Entry) (m : Option String)
    (h : mmCount book m ≤ 1) :
    mmCount (if q.size > 0 then
        (book.filter fun x => x.mmid ≠ q.mmid) ++ [q]
      else (book.filter fun x => x.mmid ≠ q.mmid)) m ≤ 1 := by
  have hfil : mmCount (book.filter fun x => x.mmid ≠ q.mmid) m ≤ 1 :=
    le_trans ((List.filter_sublist book).countP_le _) h
  split_ifs with hp
  · rw [mmCount, List.countP_append]
    have hsing := countP_singleton_le_one q m
    by_cases hm : q.mmid = m
    · subst hm
      have h0 := mmCount_filter_self book q.mmid
      rw [mmCount] at h0
      omega
    · have h2 : List.countP (fun x => decide (x.mmid = m)) [q] = 0 := by
        simp [List.countP_cons, hm]
      rw [mmCount] at hfil
      omega
  · exact hfil

/-- One delivered LEVEL2 event preserves the at-most-one-entry-per-maker
invariant of every book. -/
lemma handle_level2_preserves (st : MDState) (ev : Except PErr Level2Rec)
    (h : ∀ sym side m, mmCount (st.bookAt sym side) m ≤ 1) :
    ∀ sym side m, mmCount ((handle_level2_message st ev).bookAt sym side) m ≤ 1 := by
  intro sym side m
  cases ev with
  | error e => exact h sym side m
  | ok rec =>
    cases hsym : rec.symbol with
    | none =>
      simp only [handle_level2_message, hsym]
      exact h sym side m
    | some sym0 =>
      cases hside : rec.side with
      | none =>
        simp only [handle_level2_message, hsym, hside]
        split_ifs <;> exact h sym side m
      | some side0 =>
        simp only [handle_level2_message, hsym, hside]
        by_cases h0 : sym0 = ""
        · rw [if_pos h0]
          exact h sym side m
        · rw [if_neg h0]
          by_cases hba : pyUpper side0 = "BID" ∨ pyUpper side0 = "ASK"
          · rw [if_pos hba]
            simp only [MDState.bookAt]
            by_cases hs : sym = pyUpper sym0
            · rw [if_pos hs, Option.getD_some, getSide_setSide]
              by_cases hside2 : (decide (side = "BID") = decide (pyUpper side0 = "BID"))
              · rw [if_pos hside2]
                exact mmCount_update_le_one _
                  ⟨pyUpper sym0, pyUpper side0, rec.price, rec.size, rec.mmid, rec.timestamp⟩
                  m (h (pyUpper sym0) (pyUpper side0) m)
              · rw [if_neg hside2]
                exact h (pyUpper sym0) side m
            · rw [if_neg hs]
              exact h sym side m
          · rw [if_neg hba]
            exact h sym side m

/-- **C4** For every finite sequence of delivered Level2 events, each
symbol/side book holds at most one entry per market-maker id; moreover a
valid event with size 0 removes the maker's entry from its book and a
positive-size event leaves exactly the new entry as that maker's only one. -/
theorem level2_book_maker_unique (events : List (Except PErr Level2Rec))
    (sym side : String) (m : Option String) (st : MDState) (e : Level2Rec) (sy sd : String)
    (hsym : e.symbol = some sy) (hne : sy ≠ "") (hside : e.side = some sd)
    (hba : pyUpper sd = "BID" ∨ pyUpper sd = "ASK") :
    (mmCount ((runLevel2 MDState.init events).bookAt sym side) m ≤ 1) ∧
    (e.size ≤ 0 →
      mmCount ((handle_level2_message st (.ok e)).bookAt (pyUpper sy) (pyUpper sd)) e.mmid = 0) ∧
    (0 < e.size →
      ((handle_level2_message st (.ok e)).bookAt (pyUpper sy) (pyUpper sd)).filter
          (fun x => x.mmid = e.mmid) =
        [⟨pyUpper sy, pyUpper sd, e.price, e.size, e.mmid, e.timestamp⟩]) := by
  have hbook : (handle_level2_message st (.ok e)).bookAt (pyUpper sy) (pyUpper sd) =
      (if e.size > 0 then
        ((st.bookAt (pyUpper sy) (pyUpper sd)).filter fun x => x.mmid ≠ e.mmid) ++
          [⟨pyUpper sy, pyUpper sd, e.price, e.size, e.mmid, e.timestamp⟩]
      else ((st.bookAt (pyUpper sy) (pyUpper sd)).filter fun x => x.mmid ≠ e.mmid)) := by
    simp only [handle_level2_message, hsym, hside]
    rw [if_neg hne, if_pos hba]
    simp only [MDState.bookAt]
    rw [if_pos trivial, Option.getD_some, getSide_setSide, if_pos rfl]
  refine ⟨?_, ?_, ?_⟩
  · -- invariant from the fresh cache, by induction over the event list
    have : ∀ evs (st0 : MDState), (∀ a b c, mmCount (st0.bookAt a b) c ≤ 1) →
        ∀ a b c, mmCount ((runLevel2 st0 evs).bookAt a b) c ≤ 1 := by
      intro evs
      induction evs with
      | nil => intro st0 h0; exact h0
      | cons ev rest ih =>
        intro st0 h0
        exact ih _ (handle_level2_preserves st0 ev h0)
    refine this events MDState.init (fun a b c => ?_) sym side m
    simp [MDState.bookAt, MDState.init, SideBooks.empty, SideBooks.getSide, mmCount]
  · intro hsz
    rw [hbook, if_neg (by omega)]
    exact mmCount_filter_self (st.bookAt (pyUpper sy) (pyUpper sd)) e.mmid
  · intro hsz
    rw [hbook, if_pos hsz, List.filter_append, List.filter_filter]
    have h1 : List.filter
        (fun x => decide (x.mmid = e.mmid) && decide (x.mmid ≠ e.mmid))
        (st.bookAt (pyUpper sy) (pyUpper sd)) = [] := by
      rw [List.filter_eq_nil_iff]
      intro a _
      simp only [Bool.and_eq_true, decide_eq_true_eq]
      rintro ⟨h1, h2⟩
      exact h2 h1
    rw [h1]
    simp

/-- Witness for `level2_book_maker_unique`: after a 100-share bid from
maker MM1 followed by a 50-share replacement, the book holds at most one
MM1 entry, and a size-0 event for MM1 then empties that maker's side. -/
theorem level2_book_maker_unique_witness :
    (mmCount ((runLevel2 MDState.init
      [.ok ⟨some "aapl", some "bid", none, 100, some "MM1", none⟩,
       .ok ⟨some "AAPL", some "BID", none, 50, some "MM1", none⟩]).bookAt "AAPL" "BID")
      (some "MM1") ≤ 1) ∧
    mmCount ((handle_level2_message
      (runLevel2 MDState.init
        [.ok ⟨some "aapl", some "bid", none, 100, some "MM1", none⟩,
         .ok ⟨some "AAPL", some "BID", none, 50, some "MM1", none⟩])
      (.ok ⟨some "aapl", some "bid", none, 0, some "MM1", none⟩)).bookAt "AAPL" "BID")
      (some "MM1") = 0 := by
  have h := level2_book_maker_unique
    [.ok ⟨some "aapl", some "bid", none, 100, some "MM1", none⟩,
     .ok ⟨some "AAPL", some "BID", none, 50, some "MM1", none⟩]
    "AAPL" "BID" (some "MM1")
    (runLevel2 MDState.init
      [.ok ⟨some "aapl", some "bid", none, 100, some "MM1", none⟩,
       .ok ⟨some "AAPL", some "BID", none, 50, some "MM1", none⟩])
    ⟨some "aapl", some "bid", none, 0, some "MM1", none⟩ "aapl" "bid"
    rfl (by decide) rfl (by decide)
  exact ⟨h.1, by simpa using h.2.1 (by decide)⟩

/-- Witness for `locate_guard_serialization`: with cooldown 5, the trace
start@0, finish@2, start@7 is admitted; at most one inquiry is ever
outstanding and the second start waited out the cooldown after the first
completion. -/
theorem locate_guard_serialization_witness :
    guardRun 5 .init [.start 0, .finish 2, .start 7] = some ⟨1, some 2⟩ ∧
    (⟨1, some 2⟩ : LocateGuard).outstanding ≤ 1 ∧
    (∃ s1, guardRun 5 .init [.start 0, .finish 2] = some s1 ∧ s1.outstanding = 0 ∧
      cooldownOver 5 s1.lastDone 7 = true) := by
  refine ⟨by decide, ?_, ?_⟩
  · exact (locate_guard_serialization 5 [.start 0, .finish 2, .start 7] ⟨1, some 2⟩).1
      (by decide)
  · exact (locate_guard_serialization 5 [.start 0, .finish 2, .start 7] ⟨1, some 2⟩).2
      [.start 0, .finish 2] 7 rfl (by decide)

/-- **C8** For every position with nonzero quantity, `calculate_pnl`
returns `unrealized_pnl = (current_price - avg_cost) * quantity` and
`pnl_percent = unrealized_pnl / (quantity * avg_cost) * 100` (the source
guards the division: when the position cost is zero it returns `0`, which
coincides with the rational convention `x / 0 = 0`); for quantity `0` all
returned P&L values are `0`. -/
theorem calculate_pnl_formula (q : Int) (ac cp : Rat) :
    (q = 0 → calculate_pnl q ac cp =
      { realized_pnl := some 0, unrealized_pnl := some 0, pnl_percent := some 0,
        position_cost := none, current_value := none }) ∧
    (q ≠ 0 →
      (calculate_pnl q ac cp).unrealized_pnl = some ((cp - ac) * (q : Rat)) ∧
      (calculate_pnl q ac cp).pnl_percent =
        some ((cp - ac) * (q : Rat) / ((q : Rat) * ac) * 100)) := by
  refine ⟨fun h => by simp [calculate_pnl, h], fun h => ?_⟩
  have h2 : ((q : Rat) * cp - (q : Rat) * ac) = (cp - ac) * (q : Rat) := by ring
  by_cases hc : (q : Rat) * ac = 0
  · have hq : (q : Rat) ≠ 0 := Int.cast_ne_zero.mpr h
    have hac : ac = 0 := (mul_eq_zero.mp hc).resolve_left hq
    subst hac
    simp [calculate_pnl, h, div_zero, mul_comm]
  · simp [calculate_pnl, h, hc, h2]

/-- Witness for the hypotheses of `calculate_pnl_formula`: quantity 200,
avg cost 150.00, current price 151.00 yields unrealized P&L 200.00 and
P&L percentage exactly 2/3 % (≈ 0.667 %). -/
theorem calculate_pnl_formula_witness :
    (calculate_pnl 200 150 151).unrealized_pnl = some 200 ∧
    (calculate_pnl 200 150 151).pnl_percent = some (2 / 3) := by
  have h := (calculate_pnl_formula 200 150 151).2 (by norm_num)
  refine ⟨?_, ?_⟩
  · rw [h.1]; norm_num
  · rw [h.2]; norm_num

/-- **C5** The locate analysis scenario: default configuration
(`max_volume_pct = 1.0`, `block_size = 100`, `max_total_cost = 2.50`,
`max_cost_pct = 1.5`), desired 500 shares, daily volume 40000, price $10,
inquiry rate $0.006/share gives allowed shares 400, locate shares 400,
total cost $2.40, position value $4000, cost percentage 0.06 %, and
recommendation APPROVE. -/
theorem analyze_locate_approve_scenario :
    (analyze_locate {} "XYZ" 500 (some 10) (some ⟨10, 40000⟩)
      (.returned (some ⟨some (6 / 1000), true⟩))) =
    { symbol := "XYZ", desired_shares := 500, success := true,
      recommendation := "APPROVE",
      reasons := [.volumeReduced 500 400, .tier "CHEAP" (12 / 5) (3 / 50)],
      volume := 40000, current_price := 10, allowed_shares := 400,
      locate_shares := 400, locate_rate := some (3 / 500), available := some true,
      is_etb := some false, locate_total_cost := some (12 / 5),
      position_value := some 4000, cost_pct_of_position := some (3 / 50) } := by
  have hf : Int.fdiv 499 100 = 4 := by decide
  simp only [analyze_locate, locate_price_volume, locate_volume_control, locate_block_shares]
  norm_num [ratTrunc, Rat.num_ofNat, Rat.den_ofNat, min_def, hf]

/-- Step 2 can only append volume-control reasons, never the zero-rate
marker. -/
lemma invalidZeroRate_notin_volume_control (cfg : LocateConfig) (d v : Int) :
    LocateReason.invalidZeroRate ∉ (locate_volume_control cfg d v).2 := by
  simp only [locate_volume_control]
  split_ifs <;> simp

/-- **C6** For every priced (non-ETB) locate inquiry result,
`analyze_locate` recommends REJECT exactly when the total cost exceeds the
absolute ceiling or the cost as a percentage of position value exceeds the
percentage ceiling, and an exceeded total-cost ceiling puts the
total-cost-exceeded message in the reasons list. -/
theorem analyze_locate_reject_iff (cfg : LocateConfig) (symbol : String) (desired : Int)
    (cp : Option Rat) (quote : Option LocateQuoteView) (info : LocateInfoView)
    (shares : Int) (tc pv pct : Rat)
    (hEtb : ¬(info.rate.getD 0 = 0 ∨ info.rate.getD 0 < 1 / 100000))
    (hshares : shares = locate_block_shares cfg
      (locate_volume_control cfg desired (locate_price_volume cp quote).2).1)
    (htc : tc = info.rate.getD 0 * (shares : Rat))
    (hpv : pv = (locate_price_volume cp quote).1 * (shares : Rat))
    (hpct : pct = if pv > 0 then tc / pv * 100 else 999) :
    ((analyze_locate cfg symbol desired cp quote (.returned (some info))).recommendation =
        "REJECT" ↔ (cfg.max_total_cost < tc ∨ cfg.max_cost_pct < pct)) ∧
    (cfg.max_total_cost < tc →
      LocateReason.totalCostExceeded tc cfg.max_total_cost ∈
        (analyze_locate cfg symbol desired cp quote (.returned (some info))).reasons) := by
  have h0 : ¬ info.rate.getD 0 = 0 := fun hh => hEtb (Or.inl hh)
  have h0' : ¬ info.rate.getD 0 < 1 / 100000 := fun hh => hEtb (Or.inr hh)
  rw [one_div] at h0'
  simp only [analyze_locate, h0, h0', one_div]
  rw [← hshares, ← htc, ← hpv, ← hpct]
  by_cases h1 : cfg.max_total_cost < tc <;> by_cases h2 : cfg.max_cost_pct < pct <;>
    simp [h1, h2, h0, h0', List.mem_append]

/-- Witness for `analyze_locate_reject_iff`: rate $0.05/share on 400
shares against the default $2.50 ceiling gives total cost $20.00 and
recommendation REJECT with the total-cost-exceeded reason recorded. -/
theorem analyze_locate_reject_iff_witness :
    (analyze_locate {} "XYZ" 500 (some 10) (some ⟨10, 40000⟩)
      (.returned (some ⟨some (5 / 100), true⟩))).recommendation = "REJECT" ∧
    LocateReason.totalCostExceeded 20 (5 / 2) ∈
      (analyze_locate {} "XYZ" 500 (some 10) (some ⟨10, 40000⟩)
        (.returned (some ⟨some (5 / 100), true⟩))).reasons := by
  have hsh : (400 : Int) = locate_block_shares {}
      (locate_volume_control {} 500 (locate_price_volume (some 10) (some ⟨10, 40000⟩)).2).1 := by
    have hf : Int.fdiv 499 100 = 4 := by decide
    norm_num [locate_block_shares, locate_volume_control, locate_price_volume,
      ratTrunc, Rat.num_ofNat, Rat.den_ofNat, min_def, hf]
  have h := analyze_locate_reject_iff {} "XYZ" 500 (some 10) (some ⟨10, 40000⟩)
    ⟨some (5 / 100), true⟩ 400 20 4000 (1 / 2) (by norm_num) hsh (by norm_num)
    (by norm_num [locate_price_volume]) (by norm_num)
  exact ⟨h.1.mpr (Or.inl (by norm_num)), h.2 (by norm_num)⟩

/-- **C10** Every inquiry result whose rate is 0 is classified as
easy-to-borrow and approved with zero cost, and the subsequent
`INVALID: Locate rate is $0` rejection branch is unreachable: its reason
tag never appears in any output of `analyze_locate`. -/
theorem analyze_locate_zero_rate (cfg : LocateConfig) (symbol : String) (desired : Int)
    (cp : Option Rat) (quote : Option LocateQuoteView) (inquiry : InquiryOutcome)
    (info : LocateInfoView) :
    (inquiry = .returned (some info) → info.rate.getD 0 = 0 →
      (analyze_locate cfg symbol desired cp quote inquiry).is_etb = some true ∧
      (analyze_locate cfg symbol desired cp quote inquiry).recommendation = "APPROVE" ∧
      (analyze_locate cfg symbol desired cp quote inquiry).success = true ∧
      (analyze_locate cfg symbol desired cp quote inquiry).locate_total_cost = some 0 ∧
      (analyze_locate cfg symbol desired cp quote inquiry).cost_pct_of_position = some 0) ∧
    LocateReason.invalidZeroRate ∉ (analyze_locate cfg symbol desired cp quote inquiry).reasons := by
  constructor
  · rintro rfl hr
    simp [analyze_locate, hr]
  · cases inquiry with
    | raised e =>
      simp [analyze_locate, List.mem_append, invalidZeroRate_notin_volume_control]
    | returned oinfo =>
      cases oinfo with
      | none =>
        simp [analyze_locate, List.mem_append, invalidZeroRate_notin_volume_control]
      | some i =>
        by_cases hetb : (i.rate.getD 0 = 0 ∨ i.rate.getD 0 < 1 / 100000)
        · rw [one_div] at hetb
          simp [analyze_locate, hetb, List.mem_append, invalidZeroRate_notin_volume_control]
        · have h0 : ¬ i.rate.getD 0 = 0 := fun hh => hetb (Or.inl hh)
          have h0' : ¬ i.rate.getD 0 < 1 / 100000 := fun hh => hetb (Or.inr hh)
          rw [one_div] at h0'
          simp only [analyze_locate, h0, h0', one_div]
          split_ifs
          all_goals
            first
            | contradiction
            | simp [List.mem_append, invalidZeroRate_notin_volume_control]

/-- Witness for `analyze_locate_zero_rate`: a returned inquiry with rate 0
is approved as ETB with zero recorded cost. -/
theorem analyze_locate_zero_rate_witness :
    (analyze_locate {} "ABC" 100 (some 5) none
      (.returned (some ⟨some 0, true⟩))).recommendation = "APPROVE" ∧
    (analyze_locate {} "ABC" 100 (some 5) none
      (.returned (some ⟨some 0, true⟩))).locate_total_cost = some 0 ∧
    LocateReason.invalidZeroRate ∉
      (analyze_locate {} "ABC" 100 (some 5) none
        (.returned (some ⟨some 0, true⟩))).reasons := by
  have h := analyze_locate_zero_rate {} "ABC" 100 (some 5) none
    (.returned (some ⟨some 0, true⟩)) ⟨some 0, true⟩
  have h1 := h.1 rfl (by norm_num)
  exact ⟨h1.2.1, h1.2.2.2.1, h.2⟩

/-- **C9** counterexample: `unsubscribe_quote` is per-level, so no single
invocation evicts both the Level2 and the TimeSales state.  Unsubscribing
AAPL at LEVEL2 leaves its TimeSales tape cached, and the default LEVEL1
unsubscribe leaves even its Level2 book. -/
theorem unsubscribe_not_full_eviction :
    (unsubscribe_quote sampleState "AAPL" .level2 true).time_sales "AAPL" = some [sampleTS] ∧
    (unsubscribe_quote sampleState "AAPL" .level1 true).level2_data "AAPL" = some sampleBooks := by
  decide

/-- **C9** (amended) `unsubscribe_quote` never raises and is per-level: a
LEVEL2 call evicts exactly that symbol's Level2 book and a TIME_SALES call
exactly its tape; the quote cache and every other symbol's state are left
unchanged; a failed send changes nothing; and a repeated call (for a
symbol no longer subscribed) is a no-op. -/
theorem unsubscribe_level_eviction (st : MDState) (symbol : String) (level : MDLevel)
    (ok : Bool) :
    (∀ s, (unsubscribe_quote st symbol level ok).quotes s = st.quotes s) ∧
    (level = .level2 → ok = true →
      (unsubscribe_quote st symbol level ok).level2_data (pyUpper symbol) = none ∧
      ∀ s, (unsubscribe_quote st symbol level ok).time_sales s = st.time_sales s) ∧
    (level = .time_sales → ok = true →
      (unsubscribe_quote st symbol level ok).time_sales (pyUpper symbol) = none ∧
      ∀ s, (unsubscribe_quote st symbol level ok).level2_data s = st.level2_data s) ∧
    (level = .level1 →
      (∀ s, (unsubscribe_quote st symbol level ok).level2_data s = st.level2_data s) ∧
      (∀ s, (unsubscribe_quote st symbol level ok).time_sales s = st.time_sales s)) ∧
    (∀ s, s ≠ pyUpper symbol →
      (unsubscribe_quote st symbol level ok).level2_data s = st.level2_data s ∧
      (unsubscribe_quote st symbol level ok).time_sales s = st.time_sales s) ∧
    (ok = false → unsubscribe_quote st symbol level ok = st) ∧
    MDState.eqv (unsubscribe_quote (unsubscribe_quote st symbol level ok) symbol level ok)
      (unsubscribe_quote st symbol level ok) := by
  refine ⟨?_, ?_, ?_, ?_, ?_, ?_, ?_⟩
  · intro s
    cases level <;> cases ok <;> rfl
  · rintro rfl rfl
    exact ⟨by simp [unsubscribe_quote], fun s => rfl⟩
  · rintro rfl rfl
    exact ⟨by simp [unsubscribe_quote], fun s => rfl⟩
  · rintro rfl
    exact ⟨fun s => by cases ok <;> rfl, fun s => by cases ok <;> rfl⟩
  · intro s hs
    cases level <;> cases ok <;> simp [unsubscribe_quote, hs]
  · rintro rfl
    rfl
  · cases level <;> cases ok <;>
      refine ⟨fun s => ?_, fun s => ?_, fun s => ?_, fun s => ?_, fun s => ?_, fun s => ?_⟩ <;>
      simp only [unsubscribe_quote, Bool.not_true, Bool.not_false, if_pos, if_neg,
        Bool.false_eq_true, ite_false, ite_true] <;>
      split_ifs <;> rfl

/-- Witness for `unsubscribe_level_eviction`: on the sample state, the
LEVEL2 unsubscribe drops the AAPL book, keeps its quote, and doing it
twice changes nothing more. -/
theorem unsubscribe_level_eviction_witness :
    (unsubscribe_quote sampleState "AAPL" .level2 true).level2_data "AAPL" = none ∧
    (unsubscribe_quote sampleState "AAPL" .level2 true).quotes "AAPL" = some sampleQuote ∧
    (unsubscribe_quote (unsubscribe_quote sampleState "AAPL" .level2 true)
      "AAPL" .level2 true).time_sales "AAPL" =
      (unsubscribe_quote sampleState "AAPL" .level2 true).time_sales "AAPL" := by
  have h := unsubscribe_level_eviction sampleState "AAPL" .level2 true
  refine ⟨?_, ?_, ?_⟩
  · have h2 := (h.2.1 rfl rfl).1
    simpa using h2
  · have h1 := h.1 "AAPL"
    rw [h1]
    decide
  · exact h.2.2.2.2.2.2.2.2.1 "AAPL"

/-- When the token at an int position parses (or is absent), the embedded
`int(...)` access returns the recorded value. -/
lemma intAt_ok (parts : List String) (i : Nat) (h : intOk parts i = true) :
    intAt parts i = Except.ok (intValAt parts i) := by
  unfold intOk at h
  unfold intAt intValAt
  cases hg : parts.get? i with
  | none => rfl
  | some t =>
    rw [hg] at h
    replace h : (pyInt t).isSome = true := h
    show (match pyInt t with
      | some n => Except.ok n
      | none => Except.error ("invalid literal for int() with base 10: " ++ t)) =
      Except.ok ((pyInt t).getD 0)
    cases hp : pyInt t with
    | none => rw [hp] at h; simp at h
    | some n => rfl

/-- A position beyond the token list reads as `None`. -/
lemma strAt_none (parts : List String) (i : Nat) (h : parts.length ≤ i) :
    strAt parts i = none :=
  List.get?_eq_none.mpr h

/-- A decimal position beyond the token list defaults to `None`. -/
lemma decAt_none (parts : List String) (i : Nat) (h : parts.length ≤ i) :
    decAt parts i = none := by
  rw [decAt, List.get?_eq_none.mpr h]
  rfl

/-- An int position beyond the token list defaults to `0`. -/
lemma intValAt_zero (parts : List String) (i : Nat) (h : parts.length ≤ i) :
    intValAt parts i = 0 := by
  unfold intValAt
  rw [List.get?_eq_none.mpr h]

/-- Closed form of `parse_order_message` when every int-position token
parses: the record is returned, decimal fields falling back to
`parse_decimal` (which defaults unparseable tokens to `None`). -/
lemma parse_order_message_ok (parts : List String) (h3 : intOk parts 3 = true)
    (h7 : intOk parts 7 = true) (h9 : intOk parts 9 = true) :
    parse_order_message parts = .ok {
      order_id := strAt parts 0
      symbol := strAt parts 1
      side := strAt parts 2
      quantity := intValAt parts 3
      price := decAt parts 4
      order_type := strAt parts 5
      status := strAt parts 6
      filled_qty := intValAt parts 7
      avg_price := decAt parts 8
      remaining_qty := intValAt parts 9
      timestamp :=
        if parts.length > 11 then parse_timestamp (joinSpace (pySlice parts 10 12)) else none
    } := by
  unfold parse_order_message
  rw [intAt_ok parts 3 h3, intAt_ok parts 7 h7, intAt_ok parts 9 h9]
  rfl

/-- Closed form of `parse_quote_message` when every int-position token
parses. -/
lemma parse_quote_message_ok (parts : List String) (h4 : intOk parts 4 = true)
    (h5 : intOk parts 5 = true) (h6 : intOk parts 6 = true) :
    parse_quote_message parts = .ok {
      symbol := strAt parts 0
      bid := decAt parts 1
      ask := decAt parts 2
      last := decAt parts 3
      volume := intValAt parts 4
      bid_size := intValAt parts 5
      ask_size := intValAt parts 6
      timestamp :=
        if parts.length > 8 then parse_timestamp (joinSpace (pySlice parts 7 9)) else none
    } := by
  unfold parse_quote_message
  rw [intAt_ok parts 4 h4, intAt_ok parts 5 h5, intAt_ok parts 6 h6]
  rfl

/-- **C2** counterexample: one non-numeric quantity token degrades the
whole ORDER record to its error-only form (the claim says the record must
still be returned with that field defaulted). -/
theorem order_bad_quantity_degrades :
    parse_order_message ["ORD1", "ABC", "B", "12x"] =
      .error ⟨"invalid literal for int() with base 10: 12x", ["ORD1", "ABC", "B", "12x"]⟩ := by
  decide

/-- **C2** (amended) A token that fails `parse_decimal` is recorded as
`None` and the record is still returned — but only the `Decimal`-parsed
fields enjoy this; the `int(...)`-parsed fields must parse (else the whole
record degrades to the error form, per the counterexample). -/
theorem bad_decimal_field_defaults (parts : List String) :
    (intOk parts 3 = true → intOk parts 7 = true → intOk parts 9 = true →
      parse_order_message parts = .ok {
        order_id := strAt parts 0
        symbol := strAt parts 1
        side := strAt parts 2
        quantity := intValAt parts 3
        price := decAt parts 4
        order_type := strAt parts 5
        status := strAt parts 6
        filled_qty := intValAt parts 7
        avg_price := decAt parts 8
        remaining_qty := intValAt parts 9
        timestamp :=
          if parts.length > 11 then parse_timestamp (joinSpace (pySlice parts 10 12)) else none
      }) ∧
    (intOk parts 4 = true → intOk parts 5 = true → intOk parts 6 = true →
      parse_quote_message parts = .ok {
        symbol := strAt parts 0
        bid := decAt parts 1
        ask := decAt parts 2
        last := decAt parts 3
        volume := intValAt parts 4
        bid_size := intValAt parts 5
        ask_size := intValAt parts 6
        timestamp :=
          if parts.length > 8 then parse_timestamp (joinSpace (pySlice parts 7 9)) else none
      }) :=
  ⟨fun h3 h7 h9 => parse_order_message_ok parts h3 h7 h9,
   fun h4 h5 h6 => parse_quote_message_ok parts h4 h5 h6⟩

/-- Witness for `bad_decimal_field_defaults`: an unparseable price token
(`notanum`) yields the full ORDER record with `price = None`. -/
theorem bad_decimal_field_defaults_witness :
    parse_order_message ["O1", "SYM", "B", "100", "notanum"] =
      .ok ⟨some "O1", some "SYM", some "B", 100, none, none, none, 0, none, 0, none⟩ := by
  have h := (bad_decimal_field_defaults ["O1", "SYM", "B", "100", "notanum"]).1
    (by decide) (by decide) (by decide)
  rw [h]
  decide

/-- **C3** counterexample: a token list shorter than the quote kind's full
field count (5 < 9) can still produce the error-marked record rather than
field defaults, when a present numeric token does not parse. -/
theorem short_quote_list_can_error :
    (["A", "1", "2", "3", "zz"] : List String).length < 9 ∧
    parse_quote_message ["A", "1", "2", "3", "zz"] =
      .error ⟨"invalid literal for int() with base 10: zz", ["A", "1", "2", "3", "zz"]⟩ := by
  constructor
  · decide
  · decide

/-- **C3** (amended) Extractors default missing trailing fields (numeric →
zero/none, string → none) instead of failing: unconditionally for
ORDER_ACTION (which has no int fields), and for QUOTE provided each int
token that is present parses. -/
theorem short_token_lists_default (parts : List String) :
    (∃ r, parse_order_action_message parts = .ok r ∧
      (parts.length ≤ 0 → r.order_id = none) ∧
      (parts.length ≤ 1 → r.action = none) ∧
      (parts.length ≤ 2 → r.status = none) ∧
      (parts.length ≤ 3 → r.details = none)) ∧
    (intOk parts 4 = true → intOk parts 5 = true → intOk parts 6 = true →
      ∃ r, parse_quote_message parts = .ok r ∧
        (parts.length ≤ 0 → r.symbol = none) ∧
        (parts.length ≤ 1 → r.bid = none) ∧
        (parts.length ≤ 2 → r.ask = none) ∧
        (parts.length ≤ 3 → r.last = none) ∧
        (parts.length ≤ 4 → r.volume = 0) ∧
        (parts.length ≤ 5 → r.bid_size = 0) ∧
        (parts.length ≤ 6 → r.ask_size = 0) ∧
        (parts.length ≤ 8 → r.timestamp = none)) := by
  constructor
  · refine ⟨_, rfl, ?_, ?_, ?_, ?_⟩
    · exact fun h => strAt_none parts 0 (by omega)
    · exact fun h => strAt_none parts 1 (by omega)
    · exact fun h => strAt_none parts 2 (by omega)
    · exact fun h => if_neg (by omega)
  · intro h4 h5 h6
    refine ⟨_, parse_quote_message_ok parts h4 h5 h6, ?_, ?_, ?_, ?_, ?_, ?_, ?_, ?_⟩
    · exact fun h => strAt_none parts 0 (by omega)
    · exact fun h => decAt_none parts 1 (by omega)
    · exact fun h => decAt_none parts 2 (by omega)
    · exact fun h => decAt_none parts 3 (by omega)
    · exact fun h => intValAt_zero parts 4 (by omega)
    · exact fun h => intValAt_zero parts 5 (by omega)
    · exact fun h => intValAt_zero parts 6 (by omega)
    · exact fun h => if_neg (by omega)

/-- Witness for `short_token_lists_default`: a one-token quote line gets
every missing trailing field defaulted, with no error marker. -/
theorem short_token_lists_default_witness :
    (∃ r, parse_order_action_message ["7"] = .ok r ∧ r.status = none ∧ r.details = none) ∧
    (∃ r, parse_quote_message ["AAPL"] = .ok r ∧ r.last = none ∧ r.volume = 0 ∧
      r.timestamp = none) := by
  have h := short_token_lists_default ["AAPL"]
  have h2 := short_token_lists_default ["7"]
  constructor
  · obtain ⟨r, hr, -, -, hs, hd⟩ := h2.1
    exact ⟨r, hr, hs (by decide), hd (by decide)⟩
  · obtain ⟨r, hr, -, -, -, hl, hv, -, -, ht⟩ := h.2 (by decide) (by decide) (by decide)
    exact ⟨r, hr, hl (by decide), hv (by decide), ht (by decide)⟩

/-- The `except` wrapper records exactly the incoming token list as the
`"raw"` payload of an error-marked record. -/
lemma raw_of_catching {α : Type} (parts : List String) (body : Except String α) (e : PErr)
    (h : catching parts body = .error e) : e.raw = parts := by
  cases body with
  | ok r => simp [catching] at h
  | error msg =>
    simp only [catching] at h
    injection h with h2
    rw [← h2]

/-- An extractor result with a raw payload is the error form carrying it. -/
lemma rawErr_some {α : Type} (x : Except PErr α) (raw : List String)
    (h : rawErr x = some raw) : ∃ e, x = .error e ∧ e.raw = raw := by
  cases x with
  | ok r => simp [rawErr] at h
  | error e =>
    simp only [rawErr, Option.some.injEq] at h
    exact ⟨e, rfl, h⟩

set_option maxHeartbeats 1600000 in
/-- Error tagging of the `%`-dispatch: an error-marked control event
carries the token tail of the line, and an unknown result carries the
whole line. -/
lemma control_error_raw (m : String) :
    (∀ raw, errorRawOf (parse_control_message m) = some raw → raw = (pySplit m).tail) ∧
    (∀ r, parse_control_message m = .unknown r → r = m) := by
  unfold parse_control_message
  cases hsp : pySplit m with
  | nil =>
    constructor
    · intro raw h
      replace h : (none : Option (List String)) = some raw := h
      cases h
    · intro r h
      injection h with h2
      exact h2.symm
  | cons head tail =>
    simp only [List.tail_cons]
    constructor
    · intro raw h
      split_ifs at h
      · replace h : rawErr (parse_order_message tail) = some raw := h
        obtain ⟨e, hx, hraw⟩ := rawErr_some _ raw h
        rw [← hraw]
        exact raw_of_catching tail _ e hx
      · replace h : rawErr (parse_order_action_message tail) = some raw := h
        obtain ⟨e, hx, hraw⟩ := rawErr_some _ raw h
        rw [← hraw]
        exact raw_of_catching tail _ e hx
      · replace h : rawErr (parse_position_message tail) = some raw := h
        obtain ⟨e, hx, hraw⟩ := rawErr_some _ raw h
        rw [← hraw]
        exact raw_of_catching tail _ e hx
      · replace h : rawErr (parse_buying_power_message tail) = some raw := h
        obtain ⟨e, hx, hraw⟩ := rawErr_some _ raw h
        rw [← hraw]
        exact raw_of_catching tail _ e hx
      · replace h : rawErr (parse_short_info_message tail) = some raw := h
        obtain ⟨e, hx, hraw⟩ := rawErr_some _ raw h
        rw [← hraw]
        exact raw_of_catching tail _ e hx
      · replace h : rawErr (parse_locate_info_message tail) = some raw := h
        obtain ⟨e, hx, hraw⟩ := rawErr_some _ raw h
        rw [← hraw]
        exact raw_of_catching tail _ e hx
      · replace h : rawErr (parse_locate_return_message tail) = some raw := h
        obtain ⟨e, hx, hraw⟩ := rawErr_some _ raw h
        rw [← hraw]
        exact raw_of_catching tail _ e hx
      · replace h : rawErr (parse_locate_order_message tail) = some raw := h
        obtain ⟨e, hx, hraw⟩ := rawErr_some _ raw h
        rw [← hraw]
        exact raw_of_catching tail _ e hx
      · replace h : rawErr (parse_order_message tail) = some raw := h
        obtain ⟨e, hx, hraw⟩ := rawErr_some _ raw h
        rw [← hraw]
        exact raw_of_catching tail _ e hx
      · replace h : rawErr (parse_position_message tail) = some raw := h
        obtain ⟨e, hx, hraw⟩ := rawErr_some _ raw h
        rw [← hraw]
        exact raw_of_catching tail _ e hx
      · replace h : rawErr (parse_watch_trade_message tail) = some raw := h
        obtain ⟨e, hx, hraw⟩ := rawErr_some _ raw h
        rw [← hraw]
        exact raw_of_catching tail _ e hx
      · replace h : (none : Option (List String)) = some raw := h
        cases h
    · intro r h
      split_ifs at h

set_option maxHeartbeats 1600000 in
/-- Error tagging of the `$`-dispatch, as for the control dispatch. -/
lemma data_error_raw (m : String) :
    (∀ raw, errorRawOf (parse_data_message m) = some raw → raw = (pySplit m).tail) ∧
    (∀ r, parse_data_message m = .unknown r → r = m) := by
  unfold parse_data_message
  cases hsp : pySplit m with
  | nil =>
    constructor
    · intro raw h
      replace h : (none : Option (List String)) = some raw := h
      cases h
    · intro r h
      injection h with h2
      exact h2.symm
  | cons head tail =>
    simp only [List.tail_cons]
    constructor
    · intro raw h
      split_ifs at h
      · replace h : rawErr (parse_quote_message tail) = some raw := h
        obtain ⟨e, hx, hraw⟩ := rawErr_some _ raw h
        rw [← hraw]
        exact raw_of_catching tail _ e hx
      · replace h : rawErr (parse_level2_message tail) = some raw := h
        obtain ⟨e, hx, hraw⟩ := rawErr_some _ raw h
        rw [← hraw]
        exact raw_of_catching tail _ e hx
      · replace h : rawErr (parse_time_sales_message tail) = some raw := h
        obtain ⟨e, hx, hraw⟩ := rawErr_some _ raw h
        rw [← hraw]
        exact raw_of_catching tail _ e hx
      · replace h : rawErr (parse_chart_message tail) = some raw := h
        obtain ⟨e, hx, hraw⟩ := rawErr_some _ raw h
        rw [← hraw]
        exact raw_of_catching tail _ e hx
      · replace h : rawErr (parse_limit_down_up_message tail) = some raw := h
        obtain ⟨e, hx, hraw⟩ := rawErr_some _ raw h
        rw [← hraw]
        exact raw_of_catching tail _ e hx
      · replace h : rawErr (parse_locate_avail_message tail) = some raw := h
        obtain ⟨e, hx, hraw⟩ := rawErr_some _ raw h
        rw [← hraw]
        exact raw_of_catching tail _ e hx
      · replace h : (none : Option (List String)) = some raw := h
        cases h
    · intro r h
      split_ifs at h

/-- **C1** counterexample: not every malformed line is error-marked.  A
truncated `%ORDER` line (one token) and an `%ORDER` line with an
unparseable Decimal price field both return an ordinary ORDER record with
the affected fields defaulted — no `error` field and not UNKNOWN. -/
theorem parse_message_malformed_unmarked :
    parse_message "%ORDER 1" =
      .order (.ok ⟨some "1", none, none, 0, none, none, none, 0, none, 0, none⟩) ∧
    errorRawOf (parse_message "%ORDER 1") = none ∧
    parse_message "%ORDER 1 SYM B 5 xx" =
      .order (.ok ⟨some "1", some "SYM", some "B", 5, none, none, none, 0, none, 0, none⟩) ∧
    errorRawOf (parse_message "%ORDER 1 SYM B 5 xx") = none := by
  decide

set_option maxHeartbeats 1600000 in
/-- **C1** (amended) `parse_message` maps every input line to exactly one structured
event (it is a total function of the line); every error-marked record
carries as its raw payload exactly the token tail of the stripped line,
and every unknown-classified line is returned whole (stripped) in its
`raw` field — failures are encoded in the returned value, never raised.
Not every malformed line is so marked: a truncated token list or an
unparseable Decimal field yields an ordinary record with defaulted fields
(see the counterexample); only an unparseable `int(...)` field produces
the error-marked form. -/
theorem parse_message_single_tagged_event (s : String) :
    (∃! ev, parse_message s = ev) ∧
    (∀ raw, errorRawOf (parse_message s) = some raw → raw = (pySplit (pyStrip s)).tail) ∧
    (∀ r, parse_message s = .unknown r → r = pyStrip s) := by
  refine ⟨⟨parse_message s, rfl, fun y hy => hy.symm⟩, ?_, ?_⟩
  · intro raw h
    simp only [parse_message] at h
    split_ifs at h
    · exact (control_error_raw (pyStrip s)).1 raw h
    · exact (data_error_raw (pyStrip s)).1 raw h
    · replace h : (none : Option (List String)) = some raw := h
      cases h
    · replace h : (none : Option (List String)) = some raw := h
      cases h
    · replace h : (none : Option (List String)) = some raw := h
      cases h
    · replace h : (none : Option (List String)) = some raw := h
      cases h
  · intro r h
    simp only [parse_message] at h
    split_ifs at h
    · exact (control_error_raw (pyStrip s)).2 r h
    · exact (data_error_raw (pyStrip s)).2 r h
    all_goals injection h with h2
    all_goals exact h2.symm

/-- Witness for `parse_message_single_tagged_event`: an ORDER line with a
bad quantity token yields an error-marked event carrying the token tail,
and an unclassifiable line comes back whole as UNKNOWN. -/
theorem parse_message_single_tagged_event_witness :
    (["1", "AAPL", "B", "abc"] : List String) =
      (pySplit (pyStrip "%ORDER 1 AAPL B abc")).tail ∧
    "junk line" = pyStrip " junk line " := by
  constructor
  · exact (parse_message_single_tagged_event "%ORDER 1 AAPL B abc").2.1
      ["1", "AAPL", "B", "abc"] (by decide)
  · exact (parse_message_single_tagged_event " junk line ").2.2 "junk line" (by decide)

end DasBridge
